/-
Verification of the Image-Forensic frontend orchestration layer.

Shallow embedding of:
  - src/src/hooks/useForensics.ts        (analyzeImage, transformPythonResponse, resetAnalysis)
  - src/src/components/ImageUpload.tsx   (validateFile, handleFiles)
  - the ForensicsReport component        (performReverseSearch, formatExpiryTime)
together with a spec-modelled reverse-search URL builder for the backend,
whose Python sources are not part of the repository snapshot.

JavaScript truthiness (`x || d`, `x ? a : b`, optional chaining `?.`) is
embedded explicitly: `Option` models possibly-undefined values, and the
`jsOr*` helpers reproduce the falsiness of `""`, `0` and `false`.
-/
import Mathlib

set_option linter.unreachableTactic false
set_option linter.unusedTactic false
set_option linter.unnecessarySeqFocus false

namespace ImageForensic

/-! ## JavaScript value helpers -/

/-- Truthiness of a possibly-undefined string: `undefined` and `""` are falsy. -/
def jsTruthyS : Option String → Bool
  | some s => s ≠ ""
  | none => false

/-- Truthiness of a possibly-undefined boolean: `undefined` and `false` are falsy. -/
def jsTruthyB : Option Bool → Bool
  | some b => b
  | none => false

/-- `a || d` on strings: returns `d` when `a` is `undefined` or `""`. -/
def jsOrS : Option String → String → String
  | some s, d => if s = "" then d else s
  | none, d => d

/-- `a || d` on strings where the fallback may itself be `undefined`
(`pythonData.session_id || sessionIdRef.current`). -/
def jsOrOptS : Option String → Option String → Option String
  | some s, d => if s = "" then d else some s
  | none, d => d

/-- `a || d` on rationals (JS numbers): `undefined` and `0` are falsy. -/
def jsOrQ : Option ℚ → ℚ → ℚ
  | some x, d => if x = 0 then d else x
  | none, d => d

/-- `a || d` on integers (JS numbers): `undefined` and `0` are falsy. -/
def jsOrI : Option ℤ → ℤ → ℤ
  | some n, d => if n = 0 then d else n
  | none, d => d

/-- `a || d` on booleans: `undefined` and `false` are falsy. -/
def jsOrB : Option Bool → Bool → Bool
  | some b, d => if b = false then d else b
  | none, d => d

/-- `s.startsWith(p)`, computed on the underlying character lists. -/
def jsStartsWith (s p : String) : Bool :=
  p.data.isPrefixOf s.data

/-- Rendering of a possibly-undefined string in a template literal:
`undefined` prints as `"undefined"`. -/
def jsTemplateS : Option String → String
  | some s => s
  | none => "undefined"

/-- Decimal digits of a natural number scaled remainder, padded to `d` digits. -/
def padLeftZeros (s : String) (d : Nat) : String :=
  if s.length ≥ d then s else String.mk (List.replicate (d - s.length) '0') ++ s

/-- `Number.prototype.toFixed(d)` on an exact rational: round `q·10^d` to the
nearest integer (ties toward +∞, per the ECMAScript rounding of `toFixed`) and
print with `d` decimal places. -/
def jsToFixed (q : ℚ) (d : Nat) : String :=
  let n : ℤ := round (q * (10 : ℚ) ^ d)
  let sign := if n < 0 then "-" else ""
  let m := n.natAbs
  if d = 0 then
    sign ++ toString m
  else
    sign ++ toString (m / 10 ^ d) ++ "." ++ padLeftZeros (toString (m % 10 ^ d)) d

/-- `parseInt` restricted to the shapes fed to it by `transformPythonResponse`:
an optional sign followed by leading decimal digits; no digits parses to `NaN`,
modelled as `none`. -/
def jsParseInt (s : String) : Option ℤ :=
  let chars := s.data
  let (neg, rest) :=
    match chars with
    | '-' :: cs => (true, cs)
    | '+' :: cs => (false, cs)
    | cs => (false, cs)
  let digits := rest.takeWhile (fun c => c.isDigit)
  if digits.isEmpty then none
  else
    let v : ℕ := digits.foldl (fun acc c => acc * 10 + (c.toNat - '0'.toNat)) 0
    some (if neg then -(v : ℤ) else (v : ℤ))

/-! ## Browser-side data model -/

/-- A browser `File`: name, byte size and declared MIME type. -/
structure JSFile where
  name : String
  size : ℕ
  mimeType : String
deriving Repr, DecidableEq

/-- The parts of `window.location` read by `getApiBaseUrl`. -/
structure JSLocation where
  hostname : String
  origin : String
deriving Repr, DecidableEq

/-- `getApiBaseUrl` from useForensics.ts: `none` models a non-browser context
(`typeof window === 'undefined'`). -/
def getApiBaseUrl : Option JSLocation → String
  | some l => if l.hostname = "localhost" then "http://localhost:8000" else l.origin
  | none => "http://localhost:8000"

/-! ## Backend response model (the `any`-typed `pythonData`)

Every field the transform dereferences with `?.` or guards with `||` is an
`Option`; EXIF data is an association list of string keys to string values. -/

/-- EXIF data object: present keys with their (string-rendered) values. -/
def ExifData := List (String × String)

/-- `exifData[key]`, `undefined` when the key is absent. -/
def exifLookup (ex : ExifData) (key : String) : Option String :=
  (ex.find? (fun p => p.1 = key)).map (fun p => p.2)

/-- A `||`-chain over EXIF keys ending in a default literal:
`exifData[k1] || exifData[k2] || ... || d`. -/
def exifOr (ex : ExifData) : List String → String → String
  | [], d => d
  | k :: ks, d =>
    match exifLookup ex k with
    | some v => if v = "" then exifOr ex ks d else v
    | none => exifOr ex ks d

/-- `results.tamper_detection` entry. -/
structure TamperDetectionEntry where
  integrity_score : Option ℚ
  error : Option String
deriving Repr, DecidableEq

/-- Inner `ai_detection` object (`results.ai_detection.ai_detection`). -/
structure AIDetectionInner where
  confidence_score : Option ℚ
  is_ai_generated : Option Bool
  error : Option String
deriving Repr, DecidableEq

/-- `results.ai_detection` entry, wrapping the nested `ai_detection` object. -/
structure AIDetectionEntry where
  ai_detection : Option AIDetectionInner
deriving Repr, DecidableEq

/-- One face object inside `results.face_detection.face_detection.faces`. -/
structure BackendFace where
  confidence : Option ℚ
  age : Option ℤ
  gender : Option String
  emotionObj : Option (Option String)
  bounding_box : Option (List ℚ)
deriving Repr, DecidableEq

/-- Inner `face_detection` object (`results.face_detection.face_detection`). -/
structure FaceDetectionInner where
  count : Option ℤ
  faces : Option (List BackendFace)
  error : Option String
deriving Repr, DecidableEq

/-- `results.face_detection` entry, wrapping the nested `face_detection` object. -/
structure FaceDetectionEntry where
  face_detection : Option FaceDetectionInner
deriving Repr, DecidableEq

/-- The `results` object of the backend response. -/
structure BackendResults where
  exif_data : Option ExifData
  message : Option String
  suggestion : Option String
  tamper_detection : Option TamperDetectionEntry
  ai_detection : Option AIDetectionEntry
  face_detection : Option FaceDetectionEntry

/-- The whole backend response (`pythonData`). -/
structure PythonResponse where
  results : Option BackendResults
  image_id : Option String
  session_id : Option String

/-- The empty object `{}` substituted by `pythonData.results || {}`. -/
def emptyBackendResults : BackendResults :=
  { exif_data := none, message := none, suggestion := none,
    tamper_detection := none, ai_detection := none, face_detection := none }

/-! ## Frontend report model (`ForensicsResults` from types/forensics.ts) -/

/-- Camera-settings sub-object of the metadata slot. -/
structure MetaSettings where
  iso : String
  aperture : String
  shutterSpeed : String
  focalLength : String
deriving Repr, DecidableEq

/-- Metadata slot of the report. -/
structure MetadataSlot where
  camera : String
  lens : String
  settings : MetaSettings
  timestamp : String
  software : String
  orientation : String
  resolutionX : String
  resolutionY : String
  message : Option String
  suggestion : Option String
  dimWidth : Option ℤ
  dimHeight : Option ℤ
deriving Repr, DecidableEq

/-- Tamper slot of the report. -/
structure TamperSlot where
  confidence : ℚ
  compressionArtifacts : Bool
  doubleJpeg : Bool
  analysis : String
deriving Repr, DecidableEq

/-- AI-analysis slot of the report. -/
structure AISlot where
  confidence : ℚ
  isAiGenerated : Bool
  indicators : List String
  analysis : String
deriving Repr, DecidableEq

/-- Bounding box of a detected face. -/
structure FaceBBox where
  x : ℚ
  y : ℚ
  width : ℚ
  height : ℚ
deriving Repr, DecidableEq

/-- One face entry of the face-analysis slot. -/
structure FaceEntry where
  id : String
  confidence : ℚ
  age : String
  gender : String
  emotion : String
  bbox : FaceBBox
deriving Repr, DecidableEq

/-- Face-analysis slot of the report. -/
structure FaceSlot where
  count : ℤ
  faces : List FaceEntry
  analysis : String
deriving Repr, DecidableEq

/-- File-info slot of the report. -/
structure FileInfoSlot where
  filename : String
  size : String
  mimeType : String
  dimWidth : Option ℤ
  dimHeight : Option ℤ
  hash : String
  colorSpace : String
  bitDepth : ℕ
  compression : String
deriving Repr, DecidableEq

/-- The aggregated `ForensicsResults` report. -/
structure ForensicsResults where
  metadata : MetadataSlot
  tamper : TamperSlot
  aiAnalysis : AISlot
  faceAnalysis : FaceSlot
  fileInfo : FileInfoSlot
  imageId : String
  publicImageUrl : String
  sessionId : Option String
  expiresAt : ℤ

/-! ## transformPythonResponse (useForensics.ts, lines 80-178)

The five slots of the returned object literal are factored into one
definition per slot; `transformPythonResponse` assembles them exactly as the
source object literal does. -/

/-- `Object.keys(exifData).length > 0 && !exifData.error`. -/
def hasExifData (ex : ExifData) : Bool :=
  !ex.isEmpty && !jsTruthyS (exifLookup ex "error")

/-- The `metadata` slot. -/
def metadataSlot (rs : BackendResults) : MetadataSlot :=
  let ex := rs.exif_data.getD []
  let has := hasExifData ex
  { camera := if has then exifOr ex ["Make", "Image Make"] "Unknown" else "No EXIF data"
    lens := if has then exifOr ex ["Model", "Image Model"] "Unknown" else "No EXIF data"
    settings :=
      { iso := if has then exifOr ex ["ISO", "EXIF ISOSpeedRatings"] "Unknown" else "No EXIF data"
        aperture := if has then exifOr ex ["FNumber", "EXIF FNumber"] "Unknown" else "No EXIF data"
        shutterSpeed := if has then exifOr ex ["ExposureTime", "EXIF ExposureTime"] "Unknown" else "No EXIF data"
        focalLength := if has then exifOr ex ["FocalLength", "EXIF FocalLength"] "Unknown" else "No EXIF data" }
    timestamp := if has then exifOr ex ["DateTimeOriginal", "EXIF DateTimeOriginal", "DateTime"] "Unknown" else "No EXIF data"
    software := if has then exifOr ex ["Software"] "Unknown" else "No EXIF data"
    orientation := if has then exifOr ex ["Image Orientation"] "Unknown" else "No EXIF data"
    resolutionX := if has then exifOr ex ["Image XResolution"] "Unknown" else "No EXIF data"
    resolutionY := if has then exifOr ex ["Image YResolution"] "Unknown" else "No EXIF data"
    message := rs.message
    suggestion := rs.suggestion
    dimWidth := if has then jsParseInt (exifOr ex ["EXIF ExifImageWidth", "Image ImageWidth"] "0") else some 0
    dimHeight := if has then jsParseInt (exifOr ex ["EXIF ExifImageLength", "Image ImageLength"] "0") else some 0 }

/-- The `tamper` slot. -/
def tamperSlot (rs : BackendResults) : TamperSlot :=
  let score := jsOrQ (rs.tamper_detection.bind (fun t => t.integrity_score)) 0
  { confidence := score
    compressionArtifacts := false
    doubleJpeg := false
    analysis := jsOrS (rs.tamper_detection.bind (fun t => t.error))
      ("Tamper detection completed. Integrity score: " ++ jsToFixed score 3) }

/-- The `aiAnalysis` slot. -/
def aiSlot (rs : BackendResults) : AISlot :=
  let inner := rs.ai_detection.bind (fun a => a.ai_detection)
  let conf := jsOrQ (inner.bind (fun i => i.confidence_score)) 0
  let isAi := jsTruthyB (inner.bind (fun i => i.is_ai_generated))
  let err := inner.bind (fun i => i.error)
  { confidence := conf
    isAiGenerated := jsOrB (inner.bind (fun i => i.is_ai_generated)) false
    indicators :=
      if jsTruthyS err then ["Analysis failed"]
      else [if isAi then "AI generated content detected" else "Natural image detected"]
    analysis := jsOrS err
      ("AI detection completed. " ++ (if isAi then "AI generated" else "Natural") ++
        " image with " ++ jsToFixed conf 3 ++ " confidence.") }

/-- One mapped face entry (`faces?.map((face, index) => ...)`). -/
def mkFaceEntry (index : ℕ) (face : BackendFace) : FaceEntry :=
  let bb := face.bounding_box
  let bb0 := jsOrQ (bb.bind (fun l => l.get? 0)) 0
  let bb1 := jsOrQ (bb.bind (fun l => l.get? 1)) 0
  let bb2 := jsOrQ (bb.bind (fun l => l.get? 2)) 0
  let bb3 := jsOrQ (bb.bind (fun l => l.get? 3)) 0
  { id := "face_" ++ toString (index + 1)
    confidence := jsOrQ face.confidence 0
    age :=
      match face.age with
      | some n => if n = 0 then "Unknown" else toString n
      | none => "Unknown"
    gender := jsOrS face.gender "Unknown"
    emotion := jsOrS (face.emotionObj.bind (fun e => e)) "Unknown"
    bbox := { x := bb0, y := bb1, width := bb2 - bb0, height := bb3 - bb1 } }

/-- The `faceAnalysis` slot. -/
def faceSlot (rs : BackendResults) : FaceSlot :=
  let inner := rs.face_detection.bind (fun f => f.face_detection)
  let cnt := jsOrI (inner.bind (fun i => i.count)) 0
  { count := cnt
    faces :=
      match inner.bind (fun i => i.faces) with
      | some l => l.mapIdx (fun i face => mkFaceEntry i face)
      | none => []
    analysis := jsOrS (inner.bind (fun i => i.error))
      ("Face detection completed. Found " ++ toString cnt ++ " face(s).") }

/-- The `fileInfo` slot. -/
def fileInfoSlot (pd : PythonResponse) (rs : BackendResults) (file : JSFile) : FileInfoSlot :=
  let ex := rs.exif_data.getD []
  let has := hasExifData ex
  { filename := file.name
    size := jsToFixed ((file.size : ℚ) / 1024) 2 ++ " KB"
    mimeType := file.mimeType
    dimWidth := if has then jsParseInt (exifOr ex ["EXIF ExifImageWidth", "Image ImageWidth"] "0") else some 0
    dimHeight := if has then jsParseInt (exifOr ex ["EXIF ExifImageLength", "Image ImageLength"] "0") else some 0
    hash := jsOrS pd.image_id "unknown"
    colorSpace := if has then exifOr ex ["EXIF ColorSpace"] "Unknown" else "No EXIF data"
    bitDepth := 8
    compression := "Unknown" }

/-- `transformPythonResponse(pythonData, file)`; `loc` is the browser location
read by `getApiBaseUrl`, `ref` the current `sessionIdRef`, `now` the value of
`Date.now()` in milliseconds. -/
def transformPythonResponse (loc : Option JSLocation) (ref : Option String)
    (now : ℤ) (pd : PythonResponse) (file : JSFile) : ForensicsResults :=
  let rs := pd.results.getD emptyBackendResults
  { metadata := metadataSlot rs
    tamper := tamperSlot rs
    aiAnalysis := aiSlot rs
    faceAnalysis := faceSlot rs
    fileInfo := fileInfoSlot pd rs file
    imageId := jsOrS pd.image_id "unknown"
    publicImageUrl := getApiBaseUrl loc ++ "/image/" ++ jsTemplateS pd.image_id
    sessionId := jsOrOptS pd.session_id ref
    expiresAt := now + 60 * 60 * 1000 }

/-! ## The useForensics hook state and analyzeImage -/

/-- The hook's state: `isAnalyzing`, `results`, `uploadedImage`, `sessionIdRef`. -/
structure HookState where
  isAnalyzing : Bool
  results : Option ForensicsResults
  uploadedImage : Option JSFile
  sessionIdRef : Option String

/-- Outcome of the `fetch` + `response.json()` round trip inside
`analyzeImage`: an OK response with parsed body, a non-OK HTTP response
(which the code converts into a thrown error), or any other thrown error. -/
inductive FetchOutcome where
  | ok (data : PythonResponse)
  | httpError (status : ℕ)
  | thrown (msg : String)

/-- `analyzeImage(file)` as a state transition given the fetch outcome. -/
def analyzeImage (loc : Option JSLocation) (now : ℤ)
    (s : HookState) (file : JSFile) (outcome : FetchOutcome) : HookState :=
  let s1 : HookState := { s with isAnalyzing := true, uploadedImage := some file }
  match outcome with
  | .ok data =>
    let ref :=
      match data.session_id with
      | some sid => if sid = "" then s1.sessionIdRef else some sid
      | none => s1.sessionIdRef
    { s1 with
      sessionIdRef := ref
      results := some (transformPythonResponse loc ref now data file)
      isAnalyzing := false }
  | .httpError _ => { s1 with results := none, isAnalyzing := false }
  | .thrown _ => { s1 with results := none, isAnalyzing := false }

/-- `resetAnalysis()`: clears results, uploaded image and the analyzing flag;
the session id ref is deliberately kept. -/
def resetAnalysis (s : HookState) : HookState :=
  { s with results := none, uploadedImage := none, isAnalyzing := false }

/-! ## Upload validation (ImageUpload.tsx, lines 24-47) -/

/-- `validateFile(file)`: `some message` is a rejection, `none` means valid. -/
def validateFile (file : JSFile) : Option String :=
  if !(jsStartsWith file.mimeType "image/") then
    some "Please upload a valid image file"
  else if file.size > 10 * 1024 * 1024 then
    some "File size must be less than 10MB"
  else
    none

/-- What `handleFiles` does with an incoming `FileList`. -/
inductive HandleOutcome where
  | noFiles
  | rejected (msg : String)
  | uploaded (file : JSFile)
deriving Repr, DecidableEq

/-- `handleFiles(files)`: validates the first file and calls `onImageUpload`
only when validation passes. -/
def handleFiles (files : Option (List JSFile)) : HandleOutcome :=
  match files with
  | none => .noFiles
  | some [] => .noFiles
  | some (file :: _) =>
    match validateFile file with
    | some e => .rejected e
    | none => .uploaded file

/-! ## Expiry display (ForensicsReport, formatExpiryTime) -/

/-- `formatExpiryTime(expiresAt)` with `now = Date.now()`. Integer division on
a positive `timeLeft` coincides with `Math.floor`. -/
def formatExpiryTime (now expiresAt : ℤ) : String :=
  let timeLeft := expiresAt - now
  if timeLeft ≤ 0 then "Expired"
  else
    let minutes := timeLeft / (1000 * 60)
    let hours := minutes / 60
    if hours > 0 then
      toString hours ++ "h " ++ toString (minutes % 60) ++ "m remaining"
    else
      toString minutes ++ "m remaining"

/-! ## Reverse image search

The frontend (`performReverseSearch` in the ForensicsReport component)
dispatches only the four engines of the TS literal union type, asks the
backend for the search URL, and falls back to a fixed table of engine upload
pages when no session is available. The backend handler itself
(`GET /api/v1/reverse/{engine}`) is not part of the repository snapshot, so
its URL builder is modelled from the spec below. -/

/-- The fixed enumerated engine set (the TS literal union
`'google' | 'bing' | 'yandex' | 'tineye'`). -/
inductive Engine where
  | google
  | bing
  | yandex
  | tineye
deriving Repr, DecidableEq

/-- The string name of an engine, as sent in the request path. -/
def engineName : Engine → String
  | .google => "google"
  | .bing => "bing"
  | .yandex => "yandex"
  | .tineye => "tineye"

/-- Parse an engine path parameter back into the enumerated set. -/
def parseEngine (s : String) : Option Engine :=
  if s = "google" then some .google
  else if s = "bing" then some .bing
  else if s = "yandex" then some .yandex
  else if s = "tineye" then some .tineye
  else none

/-- The `fallbackUrls` table of `performReverseSearch`. -/
def fallbackUrls : Engine → String
  | .google => "https://www.google.com/imghp?hl=en&tab=wi&authuser=0&ogbl"
  | .bing => "https://www.bing.com/images/search?view=detailv2&iss=sbi&form=SBIVSP"
  | .yandex => "https://yandex.com/images/"
  | .tineye => "https://tineye.com/"

/-- The request URL the frontend sends for a given engine and session
(`GET {base}/api/v1/reverse/{engine}?image_id=...&session_id=...`). -/
def reverseRequestUrl (base : String) (e : Engine) (imageId sessionId : String) : String :=
  base ++ "/api/v1/reverse/" ++ engineName e ++ "?image_id=" ++ imageId ++
    "&session_id=" ++ sessionId

/-- A session record.
Modelled from the spec: the backend Session Store is not part of the
repository snapshot; per spec section 3, a session is
`\x7bsession_id, image_id, created_at, expires_at, storage_location\x7d`. -/
structure Session where
  session_id : String
  image_id : String
  created_at : ℤ
  expires_at : ℤ
  storage_location : String
deriving Repr, DecidableEq

/-- The session table, keyed by `session_id`. -/
def SessionStore := List Session

/-- Look up a session by id. -/
def findSession (store : SessionStore) (sid : String) : Option Session :=
  store.find? (fun s => s.session_id = sid)

/-- Errors of the reverse-search URL builder. -/
inductive ReverseSearchError where
  | unsupportedEngine
  | sessionExpiredOrInvalid
deriving Repr, DecidableEq

/-- Per-engine reverse-search query templates.
Modelled from the spec: the backend's engine → template table is not part of
the repository snapshot; per spec section 4.4 the builder is table-driven
over the enumerated engine set, each template embedding the public image
URL into the engine's published reverse-image-search query format. -/
def engineQueryTemplate : Engine → String
  | .google => "https://lens.google.com/uploadbyurl?url="
  | .bing => "https://www.bing.com/images/search?view=detailv2&iss=sbi&q=imgurl:"
  | .yandex => "https://yandex.com/images/search?rpt=imageview&url="
  | .tineye => "https://tineye.com/search?url="

/-- The publicly reachable image URL (`{base}/image/{image_id}`, as in
`transformPythonResponse`'s `publicImageUrl`). -/
def publicImageUrlOf (base imageId : String) : String :=
  base ++ "/image/" ++ imageId

/-- `build(engine, image_id, session_id)`.
Modelled from the spec: the backend reverse-search URL builder is not part
of the repository snapshot; per spec section 4.4 it validates the engine
against the fixed set, looks up the session, requires the stored image id to
match (mismatch treated identically to not-found), requires the session to
be live, and then derives the engine-specific URL from the template table. -/
def reverseBuild (base : String) (engine imageId sessionId : String)
    (store : SessionStore) (now : ℤ) : Except ReverseSearchError String :=
  match parseEngine engine with
  | none => .error .unsupportedEngine
  | some e =>
    match findSession store sessionId with
    | none => .error .sessionExpiredOrInvalid
    | some sess =>
      if sess.image_id ≠ imageId then .error .sessionExpiredOrInvalid
      else if sess.expires_at ≤ now then .error .sessionExpiredOrInvalid
      else .ok (engineQueryTemplate e ++ publicImageUrlOf base imageId)

/-- `reverseBuild` with the session store threaded through explicitly, making
it visible that the operation is a pure read: the store is returned
unchanged. -/
def reverseBuildS (base : String) (engine imageId sessionId : String)
    (store : SessionStore) (now : ℤ) :
    Except ReverseSearchError String × SessionStore :=
  (reverseBuild base engine imageId sessionId store now, store)

/-! ## Auxiliary predicates and helper lemmas -/

/-- Every analyzer slot of a report is present and populated: each slot's
headline field is a non-empty value. -/
def slotsPopulated (r : ForensicsResults) : Prop :=
  r.metadata.camera ≠ "" ∧ r.metadata.lens ≠ "" ∧
  r.tamper.analysis ≠ "" ∧
  r.aiAnalysis.analysis ≠ "" ∧ r.aiAnalysis.indicators ≠ [] ∧
  r.faceAnalysis.analysis ≠ "" ∧
  r.fileInfo.hash ≠ ""

/-- A non-empty left factor keeps a concatenation non-empty. -/
theorem append_ne_empty_left (s t : String) (h : s ≠ "") : s ++ t ≠ "" := by
  intro hc
  apply h
  have hd := congrArg String.data hc
  rw [String.data_append] at hd
  rcases List.append_eq_nil.mp hd with ⟨h1, _⟩
  cases s
  simp only [String.data] at h1
  simp [h1]

/-- A `||`-chain over EXIF keys with a non-empty default is non-empty. -/
theorem exifOr_ne_empty (ex : ExifData) (keys : List String) (d : String)
    (hd : d ≠ "") : exifOr ex keys d ≠ "" := by
  induction keys with
  | nil => simpa [exifOr] using hd
  | cons k ks ih =>
    simp only [exifOr]
    cases exifLookup ex k with
    | none => exact ih
    | some v =>
      by_cases hv : v = "" <;> simp [hv, ih]

/-- `jsOrS` with a non-empty default is non-empty. -/
theorem jsOrS_ne_empty (o : Option String) (d : String) (hd : d ≠ "") :
    jsOrS o d ≠ "" := by
  cases o with
  | none => simpa [jsOrS] using hd
  | some s => by_cases hs : s = "" <;> simp [jsOrS, hs, hd]

/-- Nothing ending in `"m remaining"` is the string `"Expired"`. -/
theorem append_m_remaining_ne_expired (s : String) :
    s ++ "m remaining" ≠ "Expired" := by
  intro hc
  have hd := congrArg String.length hc
  rw [String.length_append] at hd
  have h1 : ("m remaining" : String).length = 11 := by decide
  have h2 : ("Expired" : String).length = 7 := by decide
  omega

/-! ## C9: resetAnalysis frame -/

/-- C9: `resetAnalysis` sets `results` to null, `uploadedImage` to null and
`isAnalyzing` to false, and leaves the stored session id unchanged. -/
theorem resetAnalysis_frame (s : HookState) :
    (resetAnalysis s).results = none ∧
    (resetAnalysis s).uploadedImage = none ∧
    (resetAnalysis s).isAnalyzing = false ∧
    (resetAnalysis s).sessionIdRef = s.sessionIdRef :=
  ⟨rfl, rfl, rfl, rfl⟩

/-! ## C10: analyzeImage failure atomicity -/

/-- C10: if the analyze request fails (non-OK HTTP response or thrown error),
`analyzeImage` ends with `results = none` and `isAnalyzing = false`; a
non-null `results` value arises only from an OK parsed response, and is the
transform of that response. -/
theorem analyzeImage_failure_atomic (loc : Option JSLocation) (now : ℤ)
    (s : HookState) (file : JSFile) (outcome : FetchOutcome) :
    ((∀ data, outcome ≠ FetchOutcome.ok data) →
      (analyzeImage loc now s file outcome).results = none ∧
      (analyzeImage loc now s file outcome).isAnalyzing = false) ∧
    (∀ r, (analyzeImage loc now s file outcome).results = some r →
      ∃ data, outcome = FetchOutcome.ok data ∧
        r = transformPythonResponse loc
          (analyzeImage loc now s file outcome).sessionIdRef now data file) := by
  cases outcome with
  | ok data =>
    refine ⟨fun h => absurd rfl (h data), fun r hr => ⟨data, rfl, ?_⟩⟩
    simp only [analyzeImage, Option.some.injEq] at hr ⊢
    exact hr.symm
  | httpError st => exact ⟨fun _ => ⟨rfl, rfl⟩, fun r hr => by cases hr⟩
  | thrown msg => exact ⟨fun _ => ⟨rfl, rfl⟩, fun r hr => by cases hr⟩

/-- Witness for C10 at a concrete failed request. -/
theorem analyzeImage_failure_atomic_witness :
    (analyzeImage none 0 ⟨false, none, none, none⟩
        ⟨"a.png", 100, "image/png"⟩ (FetchOutcome.thrown "network down")).results = none ∧
    (analyzeImage none 0 ⟨false, none, none, none⟩
        ⟨"a.png", 100, "image/png"⟩ (FetchOutcome.thrown "network down")).isAnalyzing = false :=
  (analyzeImage_failure_atomic none 0 ⟨false, none, none, none⟩
    ⟨"a.png", 100, "image/png"⟩ (FetchOutcome.thrown "network down")).1
    (fun _ h => FetchOutcome.noConfusion h)

/-! ## C4: session expiry invariant and liveness display -/

/-- C4: every report's session satisfies `expiresAt = now + TTL` with
TTL = one hour (so `expiresAt > created_at`), and `formatExpiryTime` reports
`"Expired"` iff `expiresAt ≤ now`, otherwise a remaining-time string (the
remaining time `expiresAt - now` then being positive). -/
theorem sessionExpiry_invariant (loc : Option JSLocation) (ref : Option String)
    (pd : PythonResponse) (file : JSFile) (now e : ℤ) :
    (transformPythonResponse loc ref now pd file).expiresAt = now + 60 * 60 * 1000 ∧
    now < (transformPythonResponse loc ref now pd file).expiresAt ∧
    (formatExpiryTime now e = "Expired" ↔ e ≤ now) ∧
    (now < e → 0 < e - now ∧ ∃ s, formatExpiryTime now e = s ++ "m remaining") := by
  refine ⟨rfl, ?_, ?_, ?_⟩
  · show now < now + 60 * 60 * 1000
    omega
  · simp only [formatExpiryTime]
    by_cases h : e - now ≤ 0
    · simp [h]
      omega
    · simp only [h, if_false]
      constructor
      · intro hc
        by_cases hh : (e - now) / (1000 * 60) / 60 > 0
        · rw [if_pos hh] at hc
          exact absurd hc (append_m_remaining_ne_expired _)
        · rw [if_neg hh] at hc
          exact absurd hc (append_m_remaining_ne_expired _)
      · intro hc
        omega
  · intro hlt
    refine ⟨by omega, ?_⟩
    simp only [formatExpiryTime]
    rw [if_neg (by omega : ¬ e - now ≤ 0)]
    by_cases hh : (e - now) / (1000 * 60) / 60 > 0
    · rw [if_pos hh]
      exact ⟨_, rfl⟩
    · rw [if_neg hh]
      exact ⟨_, rfl⟩

/-- Witness for C4 at a concrete live session one hour from epoch. -/
theorem sessionExpiry_invariant_witness :
    (0 : ℤ) < 3600000 ∧ (0 : ℤ) < 3600000 - 0 ∧
    ∃ s, formatExpiryTime 0 3600000 = s ++ "m remaining" := by
  have h := (sessionExpiry_invariant none none ⟨none, none, none⟩
    ⟨"a.png", 0, "image/png"⟩ 0 3600000).2.2.2 (by decide)
  exact ⟨by decide, h.1, h.2⟩

/-! ## C3: upload validation (corrected — zero-byte files are not rejected) -/

/-- C3 counterexample: a zero-byte file with an image MIME type passes
`validateFile` (no error is returned) and `handleFiles` hands it to
`onImageUpload`, contradicting the claim that zero-byte files are rejected. -/
theorem validateFile_zeroByte_counterexample :
    validateFile ⟨"empty.png", 0, "image/png"⟩ = none ∧
    handleFiles (some [⟨"empty.png", 0, "image/png"⟩]) =
      HandleOutcome.uploaded ⟨"empty.png", 0, "image/png"⟩ := by
  constructor <;> decide

/-- C3 amended: `validateFile` rejects exactly the non-image MIME types and
the files above the 10 MB ceiling (a zero-byte file with an image MIME type
is accepted), and `handleFiles` invokes `onImageUpload` only on a file for
which `validateFile` returned null. -/
theorem uploadValidation_amended (file : JSFile) (files : Option (List JSFile)) :
    (validateFile file = none ↔
      (jsStartsWith file.mimeType "image/" = true ∧ file.size ≤ 10 * 1024 * 1024)) ∧
    ((validateFile file).isSome ↔
      (jsStartsWith file.mimeType "image/" = false ∨ file.size > 10 * 1024 * 1024)) ∧
    (∀ f, handleFiles files = HandleOutcome.uploaded f → validateFile f = none) := by
  refine ⟨?_, ?_, ?_⟩
  · simp only [validateFile]
    by_cases hm : jsStartsWith file.mimeType "image/" <;>
      by_cases hs : file.size > 10 * 1024 * 1024 <;>
        simp [hm, hs] <;> try omega
  · simp only [validateFile]
    by_cases hm : jsStartsWith file.mimeType "image/" <;>
      by_cases hs : file.size > 10 * 1024 * 1024 <;>
        simp [hm, hs] <;> try omega
  · intro f hf
    match files with
    | none => cases hf
    | some [] => cases hf
    | some (g :: _) =>
      simp only [handleFiles] at hf
      cases hv : validateFile g with
      | some e => rw [hv] at hf; cases hf
      | none => rw [hv] at hf; cases hf; exact hv

/-- Witness for C3's amended theorem at a concrete valid upload. -/
theorem uploadValidation_amended_witness :
    validateFile ⟨"photo.jpg", 2 * 1024 * 1024, "image/jpeg"⟩ = none :=
  (uploadValidation_amended ⟨"photo.jpg", 2 * 1024 * 1024, "image/jpeg"⟩ none).1.mpr
    ⟨by decide, by decide⟩

/-! ## C5: reverse-search engine set -/

/-- C5: the engine set is the fixed enumeration {google, bing, yandex,
tineye}; the frontend fallback table covers every engine with an https URL;
the (spec-modelled) builder rejects every string outside the set with
`UnsupportedEngine`, and for every engine in the set with a live matching
session it produces the table-driven URL. -/
theorem reverseSearch_engineSet (s base imageId sessionId : String)
    (store : SessionStore) (now : ℤ) (sess : Session) :
    (∀ e : Engine, parseEngine (engineName e) = some e) ∧
    (∀ e : Engine, jsStartsWith (fallbackUrls e) "https://" = true) ∧
    (parseEngine s = none →
      reverseBuild base s imageId sessionId store now =
        .error ReverseSearchError.unsupportedEngine) ∧
    (∀ e : Engine, findSession store sessionId = some sess →
      sess.image_id = imageId → now < sess.expires_at →
      reverseBuild base (engineName e) imageId sessionId store now =
        .ok (engineQueryTemplate e ++ publicImageUrlOf base imageId)) := by
  refine ⟨fun e => by cases e <;> rfl, fun e => by cases e <;> decide, ?_, ?_⟩
  · intro hp
    simp [reverseBuild, hp]
  · intro e hfind him hlive
    have hp : parseEngine (engineName e) = some e := by cases e <;> rfl
    simp [reverseBuild, hp, hfind, him, not_le.mpr hlive]

/-- Witness for C5 at a concrete unknown engine and a concrete live session. -/
theorem reverseSearch_engineSet_witness :
    reverseBuild "http://localhost:8000" "altavista" "img1" "sess1"
      [⟨"sess1", "img1", 0, 3600000, "/uploads/img1"⟩] 5 =
        .error ReverseSearchError.unsupportedEngine ∧
    reverseBuild "http://localhost:8000" "bing" "img1" "sess1"
      [⟨"sess1", "img1", 0, 3600000, "/uploads/img1"⟩] 5 =
        .ok (engineQueryTemplate Engine.bing
          ++ publicImageUrlOf "http://localhost:8000" "img1") := by
  have h := reverseSearch_engineSet "altavista" "http://localhost:8000" "img1" "sess1"
    [⟨"sess1", "img1", 0, 3600000, "/uploads/img1"⟩] 5
    ⟨"sess1", "img1", 0, 3600000, "/uploads/img1"⟩
  exact ⟨h.2.2.1 (by rfl), h.2.2.2 Engine.bing (by rfl) (by rfl) (by decide)⟩

/-! ## C6: reverse-search URL building is deterministic and a pure read -/

/-- C6: building a reverse-search URL is a pure read plus a deterministic
string computation over (engine, image id, session id): the session store is
returned unchanged, a second call against the resulting store yields the
identical result, and the frontend request URL is a deterministic function
of the same triple. -/
theorem reverseSearch_idempotent (base engine imageId sessionId : String)
    (store : SessionStore) (now : ℤ) (e : Engine) :
    (reverseBuildS base engine imageId sessionId store now).2 = store ∧
    (reverseBuildS base engine imageId sessionId
        (reverseBuildS base engine imageId sessionId store now).2 now).1 =
      (reverseBuildS base engine imageId sessionId store now).1 ∧
    (reverseBuildS base engine imageId sessionId
        (reverseBuildS base engine imageId sessionId store now).2 now).2 = store ∧
    reverseRequestUrl base e imageId sessionId =
      reverseRequestUrl base e imageId sessionId :=
  ⟨rfl, rfl, rfl, rfl⟩

/-! ## C7: face count equals the number of face entries -/

/-- The backend's face-detection entry is internally consistent.
Modelled from the spec: the backend face analyzer is not part of the
repository snapshot; per the spec's scenario it reports `faces` "with a
count ≥ 0 and that many face entries", i.e. its `count` equals the length of
its `faces` array. -/
def faceBackendConsistent (pd : PythonResponse) : Prop :=
  jsOrI (((pd.results.getD emptyBackendResults).face_detection.bind
      (fun f => f.face_detection)).bind (fun i => i.count)) 0 =
    (((((pd.results.getD emptyBackendResults).face_detection.bind
      (fun f => f.face_detection)).bind (fun i => i.faces)).getD []).length : ℤ)

/-- The face slot's `count` is the backend count passed through `|| 0`. -/
theorem faceSlot_count_eq (rs : BackendResults) :
    (faceSlot rs).count =
      jsOrI ((rs.face_detection.bind (fun f => f.face_detection)).bind
        (fun i => i.count)) 0 := rfl

/-- The face slot's `faces` array has exactly as many entries as the backend
faces array (`map` preserves length, absent maps to `[]`). -/
theorem faceSlot_faces_length (rs : BackendResults) :
    (faceSlot rs).faces.length =
      (((rs.face_detection.bind (fun f => f.face_detection)).bind
        (fun i => i.faces)).getD []).length := by
  simp only [faceSlot]
  cases ((rs.face_detection.bind (fun f => f.face_detection)).bind
      (fun i => i.faces)) with
  | none => rfl
  | some l => simp

/-- C7: in every report built from a consistent backend response, the
`faceAnalysis` slot's `count` is non-negative and equals the length of its
`faces` array. -/
theorem faceCount_matches (loc : Option JSLocation) (ref : Option String)
    (now : ℤ) (pd : PythonResponse) (file : JSFile)
    (h : faceBackendConsistent pd) :
    0 ≤ (transformPythonResponse loc ref now pd file).faceAnalysis.count ∧
    (transformPythonResponse loc ref now pd file).faceAnalysis.count =
      ((transformPythonResponse loc ref now pd file).faceAnalysis.faces.length : ℤ) := by
  have hc : (transformPythonResponse loc ref now pd file).faceAnalysis.count =
      ((((((pd.results.getD emptyBackendResults).face_detection.bind
        (fun f => f.face_detection)).bind (fun i => i.faces)).getD []).length : ℕ) : ℤ) := by
    rw [show (transformPythonResponse loc ref now pd file).faceAnalysis =
        faceSlot (pd.results.getD emptyBackendResults) from rfl]
    rw [faceSlot_count_eq]
    exact h
  have hl : (transformPythonResponse loc ref now pd file).faceAnalysis.faces.length =
      ((((pd.results.getD emptyBackendResults).face_detection.bind
        (fun f => f.face_detection)).bind (fun i => i.faces)).getD []).length := by
    rw [show (transformPythonResponse loc ref now pd file).faceAnalysis =
        faceSlot (pd.results.getD emptyBackendResults) from rfl]
    exact faceSlot_faces_length _
  refine ⟨?_, ?_⟩
  · rw [hc]
    exact Int.natCast_nonneg _
  · rw [hc, hl]

/-- Witness for C7 at a concrete one-face backend response. -/
theorem faceCount_matches_witness :
    0 ≤ (transformPythonResponse none none 0
      ⟨some { emptyBackendResults with
        face_detection := some ⟨some ⟨some 1,
          some [⟨some (9/10), some 30, some "female", some (some "happy"),
            some [10, 20, 110, 140]⟩], none⟩⟩ }, some "img", some "sess"⟩
      ⟨"photo.jpg", 2048, "image/jpeg"⟩).faceAnalysis.count ∧
    (transformPythonResponse none none 0
      ⟨some { emptyBackendResults with
        face_detection := some ⟨some ⟨some 1,
          some [⟨some (9/10), some 30, some "female", some (some "happy"),
            some [10, 20, 110, 140]⟩], none⟩⟩ }, some "img", some "sess"⟩
      ⟨"photo.jpg", 2048, "image/jpeg"⟩).faceAnalysis.count =
      ((transformPythonResponse none none 0
        ⟨some { emptyBackendResults with
          face_detection := some ⟨some ⟨some 1,
            some [⟨some (9/10), some 30, some "female", some (some "happy"),
              some [10, 20, 110, 140]⟩], none⟩⟩ }, some "img", some "sess"⟩
        ⟨"photo.jpg", 2048, "image/jpeg"⟩).faceAnalysis.faces.length : ℤ) :=
  faceCount_matches none none 0 _ ⟨"photo.jpg", 2048, "image/jpeg"⟩
    (by unfold faceBackendConsistent; rfl)

/-! ## C8: tamper and AI scores stay in the unit interval -/

/-- `x || 0` keeps a `[0,1]`-bounded optional score inside `[0,1]`. -/
theorem jsOrQ_unit_bounds (o : Option ℚ)
    (h : ∀ q : ℚ, o = some q → 0 ≤ q ∧ q ≤ 1) :
    0 ≤ jsOrQ o 0 ∧ jsOrQ o 0 ≤ 1 := by
  cases o with
  | none => exact ⟨le_refl 0, by show (0 : ℚ) ≤ 1; norm_num⟩
  | some q =>
    by_cases hq : q = 0
    · simp [jsOrQ, hq]
    · simpa [jsOrQ, hq] using h q rfl

/-- C8: when the backend's integrity score and AI confidence score lie in
`[0,1]` (the backend analyzers are modelled from the spec, their sources not
being part of the repository snapshot), the report's `tamper.confidence` and
`aiAnalysis.confidence` lie in `[0,1]`, and `aiAnalysis.isAiGenerated` is a
boolean flag. -/
theorem scores_in_unit_interval (loc : Option JSLocation) (ref : Option String)
    (now : ℤ) (pd : PythonResponse) (file : JSFile)
    (ht : ∀ q : ℚ, (pd.results.getD emptyBackendResults).tamper_detection.bind
        (fun t => t.integrity_score) = some q → 0 ≤ q ∧ q ≤ 1)
    (ha : ∀ q : ℚ, ((pd.results.getD emptyBackendResults).ai_detection.bind
        (fun a => a.ai_detection)).bind (fun i => i.confidence_score) = some q →
        0 ≤ q ∧ q ≤ 1) :
    (0 ≤ (transformPythonResponse loc ref now pd file).tamper.confidence ∧
      (transformPythonResponse loc ref now pd file).tamper.confidence ≤ 1) ∧
    (0 ≤ (transformPythonResponse loc ref now pd file).aiAnalysis.confidence ∧
      (transformPythonResponse loc ref now pd file).aiAnalysis.confidence ≤ 1) ∧
    ((transformPythonResponse loc ref now pd file).aiAnalysis.isAiGenerated = true ∨
      (transformPythonResponse loc ref now pd file).aiAnalysis.isAiGenerated = false) := by
  refine ⟨?_, ?_, ?_⟩
  · exact jsOrQ_unit_bounds _ ht
  · exact jsOrQ_unit_bounds _ ha
  · cases hb : (transformPythonResponse loc ref now pd file).aiAnalysis.isAiGenerated
    · exact Or.inr rfl
    · exact Or.inl rfl

/-- Witness for C8 at a concrete backend response with in-range scores. -/
theorem scores_in_unit_interval_witness :
    0 ≤ (transformPythonResponse none none 0
      ⟨some { emptyBackendResults with
        tamper_detection := some ⟨some (1/2), none⟩
        ai_detection := some ⟨some ⟨some (3/4), some true, none⟩⟩ },
        some "img", some "sess"⟩
      ⟨"photo.jpg", 2048, "image/jpeg"⟩).tamper.confidence ∧
    (transformPythonResponse none none 0
      ⟨some { emptyBackendResults with
        tamper_detection := some ⟨some (1/2), none⟩
        ai_detection := some ⟨some ⟨some (3/4), some true, none⟩⟩ },
        some "img", some "sess"⟩
      ⟨"photo.jpg", 2048, "image/jpeg"⟩).tamper.confidence ≤ 1 :=
  ((scores_in_unit_interval none none 0
    ⟨some { emptyBackendResults with
      tamper_detection := some ⟨some (1/2), none⟩
      ai_detection := some ⟨some ⟨some (3/4), some true, none⟩⟩ },
      some "img", some "sess"⟩
    ⟨"photo.jpg", 2048, "image/jpeg"⟩
    (fun q hq => by cases Option.some.inj hq; norm_num)
    (fun q hq => by cases Option.some.inj hq; norm_num)).1 : _)

/-! ## C1: every report carries all analyzer slots, populated -/

/-- C1: `transformPythonResponse` is total over backend responses and the
resulting report always carries all analyzer slots — metadata, tamper,
aiAnalysis, faceAnalysis (plus fileInfo) — each populated, no matter which
backend entries are absent or failed. -/
theorem report_has_all_slots (loc : Option JSLocation) (ref : Option String)
    (now : ℤ) (pd : PythonResponse) (file : JSFile) :
    slotsPopulated (transformPythonResponse loc ref now pd file) := by
  unfold slotsPopulated
  refine ⟨?_, ?_, ?_, ?_, ?_, ?_, ?_⟩
  · show (metadataSlot (pd.results.getD emptyBackendResults)).camera ≠ ""
    simp only [metadataSlot]
    by_cases h : hasExifData ((pd.results.getD emptyBackendResults).exif_data.getD [])
    · simpa [h] using exifOr_ne_empty _ _ "Unknown" (by decide)
    · simp [h]
  · show (metadataSlot (pd.results.getD emptyBackendResults)).lens ≠ ""
    simp only [metadataSlot]
    by_cases h : hasExifData ((pd.results.getD emptyBackendResults).exif_data.getD [])
    · simpa [h] using exifOr_ne_empty _ _ "Unknown" (by decide)
    · simp [h]
  · show (tamperSlot (pd.results.getD emptyBackendResults)).analysis ≠ ""
    simp only [tamperSlot]
    exact jsOrS_ne_empty _ _ (append_ne_empty_left _ _ (by decide))
  · show (aiSlot (pd.results.getD emptyBackendResults)).analysis ≠ ""
    simp only [aiSlot]
    exact jsOrS_ne_empty _ _ (append_ne_empty_left _ _
      (append_ne_empty_left _ _ (append_ne_empty_left _ _
        (append_ne_empty_left _ _ (by decide)))))
  · show (aiSlot (pd.results.getD emptyBackendResults)).indicators ≠ []
    simp only [aiSlot]
    split <;> simp
  · show (faceSlot (pd.results.getD emptyBackendResults)).analysis ≠ ""
    simp only [faceSlot]
    exact jsOrS_ne_empty _ _ (append_ne_empty_left _ _
      (append_ne_empty_left _ _ (by decide)))
  · show (fileInfoSlot pd (pd.results.getD emptyBackendResults) file).hash ≠ ""
    simp only [fileInfoSlot]
    exact jsOrS_ne_empty _ _ (by decide)

/-! ## C2: analyzer failure isolation -/

/-- The empty tamper entry (`{}` as seen through `?.`). -/
def emptyTamperEntry : TamperDetectionEntry :=
  { integrity_score := none, error := none }

/-- The empty inner AI-detection object. -/
def emptyAIInner : AIDetectionInner :=
  { confidence_score := none, is_ai_generated := none, error := none }

/-- The empty inner face-detection object. -/
def emptyFaceInner : FaceDetectionInner :=
  { count := none, faces := none, error := none }

/-- A backend response equal to `pd` except that its tamper analyzer entry
carries the error message `e`. -/
def setTamperError (pd : PythonResponse) (e : String) : PythonResponse :=
  let rs := pd.results.getD emptyBackendResults
  let td := rs.tamper_detection.getD emptyTamperEntry
  let td2 := { td with error := some e }
  let rs2 := { rs with tamper_detection := some td2 }
  { pd with results := some rs2 }

/-- A backend response equal to `pd` except that its AI analyzer entry
carries the error message `e`. -/
def setAIError (pd : PythonResponse) (e : String) : PythonResponse :=
  let rs := pd.results.getD emptyBackendResults
  let inner := (rs.ai_detection.bind (fun a => a.ai_detection)).getD emptyAIInner
  let inner2 := { inner with error := some e }
  let rs2 := { rs with ai_detection := some ⟨some inner2⟩ }
  { pd with results := some rs2 }

/-- A backend response equal to `pd` except that its face analyzer entry
carries the error message `e`. -/
def setFaceError (pd : PythonResponse) (e : String) : PythonResponse :=
  let rs := pd.results.getD emptyBackendResults
  let inner := (rs.face_detection.bind (fun f => f.face_detection)).getD emptyFaceInner
  let inner2 := { inner with error := some e }
  let rs2 := { rs with face_detection := some ⟨some inner2⟩ }
  { pd with results := some rs2 }

/-- C2: a failing analyzer is recovered locally. If one analyzer's backend
entry carries a (non-empty) error message, the report is still produced
(`analyzeImage` on the OK response yields non-null results), that analyzer's
slot embeds the message as its `analysis` value, and every other analyzer's
slot is exactly what it would have been without the failure. -/
theorem analyzer_failure_isolated (loc : Option JSLocation) (ref : Option String)
    (now : ℤ) (pd : PythonResponse) (file : JSFile) (s : HookState)
    (e : String) (he : e ≠ "") :
    ((transformPythonResponse loc ref now (setTamperError pd e) file).tamper.analysis = e ∧
     (transformPythonResponse loc ref now (setTamperError pd e) file).aiAnalysis =
       (transformPythonResponse loc ref now pd file).aiAnalysis ∧
     (transformPythonResponse loc ref now (setTamperError pd e) file).faceAnalysis =
       (transformPythonResponse loc ref now pd file).faceAnalysis ∧
     (transformPythonResponse loc ref now (setTamperError pd e) file).metadata =
       (transformPythonResponse loc ref now pd file).metadata) ∧
    ((transformPythonResponse loc ref now (setAIError pd e) file).aiAnalysis.analysis = e ∧
     (transformPythonResponse loc ref now (setAIError pd e) file).tamper =
       (transformPythonResponse loc ref now pd file).tamper ∧
     (transformPythonResponse loc ref now (setAIError pd e) file).faceAnalysis =
       (transformPythonResponse loc ref now pd file).faceAnalysis ∧
     (transformPythonResponse loc ref now (setAIError pd e) file).metadata =
       (transformPythonResponse loc ref now pd file).metadata) ∧
    ((transformPythonResponse loc ref now (setFaceError pd e) file).faceAnalysis.analysis = e ∧
     (transformPythonResponse loc ref now (setFaceError pd e) file).tamper =
       (transformPythonResponse loc ref now pd file).tamper ∧
     (transformPythonResponse loc ref now (setFaceError pd e) file).aiAnalysis =
       (transformPythonResponse loc ref now pd file).aiAnalysis ∧
     (transformPythonResponse loc ref now (setFaceError pd e) file).metadata =
       (transformPythonResponse loc ref now pd file).metadata) ∧
    (analyzeImage loc now s file (FetchOutcome.ok (setTamperError pd e))).results.isSome = true := by
  refine ⟨⟨?_, rfl, rfl, rfl⟩, ⟨?_, rfl, rfl, rfl⟩, ⟨?_, rfl, rfl, rfl⟩, rfl⟩
  · show (tamperSlot ((setTamperError pd e).results.getD emptyBackendResults)).analysis = e
    simp [setTamperError, tamperSlot, jsOrS, he]
  · show (aiSlot ((setAIError pd e).results.getD emptyBackendResults)).analysis = e
    simp [setAIError, aiSlot, jsOrS, he]
  · show (faceSlot ((setFaceError pd e).results.getD emptyBackendResults)).analysis = e
    simp [setFaceError, faceSlot, jsOrS, he]

/-- Witness for C2 at a concrete crashed tamper analyzer. -/
theorem analyzer_failure_isolated_witness :
    (transformPythonResponse none none 0
      (setTamperError ⟨none, none, none⟩ "TruFor model unavailable")
      ⟨"photo.jpg", 2048, "image/jpeg"⟩).tamper.analysis = "TruFor model unavailable" ∧
    (analyzeImage none 0 ⟨false, none, none, none⟩ ⟨"photo.jpg", 2048, "image/jpeg"⟩
      (FetchOutcome.ok (setTamperError ⟨none, none, none⟩
        "TruFor model unavailable"))).results.isSome = true := by
  have h := analyzer_failure_isolated none none 0 ⟨none, none, none⟩
    ⟨"photo.jpg", 2048, "image/jpeg"⟩ ⟨false, none, none, none⟩
    "TruFor model unavailable" (by decide)
  exact ⟨h.1.1, h.2.2.2⟩

end ImageForensic
